import Mathlib

/-!
Verification of the MAKDO cluster-session core (chapter 11 sources).

This file gives a shallow embedding of:

* the session-token injection into sub-agent conversation histories and the
  coordinator health-check loop (`src/ch11/src/makdo/main.py`,
  `start_coordinator` / `create_k8s_ai_session` / `setup_tool_call_monitoring`);
* the admin session-issuance endpoint
  (`src/ch11/k8s-ai/k8s_ai/admin/admin_api.py`, `create_session`);
* the Slack channel normalization
  (`src/ch11/makdo/src/makdo/tools/slack_post_message.py` and
  `src/ch11/src/makdo/mcp_tools/slack.py`).

Python strings are modelled as Lean `String` (a sequence of unicode code
points, matching Python `str`), Python slicing `s[:n]` as `pyTake n s`,
`str.startswith` as `pyStartsWith`, and conversation histories as
`List Message`.
-/

/-- Conversation messages of the agent framework (SystemMessage / user /
assistant / tool messages), as stored in `agent.session.messages`. -/
inductive Message where
  | system (content : String)
  | user (content : String)
  | assistant (content : String)
  | tool (content : String)
deriving DecidableEq, Repr

/-- Python string slicing `s[:n]`: the first `n` code points of `s`. -/
def pyTake (n : Nat) (s : String) : String :=
  ⟨s.data.take n⟩

/-- Python `s.startswith(p)`: `p` is a prefix of `s` (code-point-wise). -/
def pyStartsWith (p s : String) : Bool :=
  p.data.isPrefixOf s.data

/-- The diagnostic call-pattern template given literally to the sub-agents
(`main.py` line 201 and again in the examples of lines 206-207):
`kubernetes_resource_health: session_token=..., resource_type=pod, namespace=all`. -/
def diagnosticCallMessage (session_token : String) : String :=
  "kubernetes_resource_health: session_token=" ++
    (session_token ++ ", resource_type=pod, namespace=all")

/-- The content of the `SystemMessage` injected into the Analyzer and Fixer
sub-agents (`main.py` lines 195-210), transcribed from the f-string with the
`cluster_context` and `session_token` interpolations made explicit. -/
def sessionContextContent (cluster_context session_token : String) : String :=
  "K8s Cluster Session: You have been given access to the \x27" ++
  (cluster_context ++
  ("\x27 Kubernetes cluster.\n\nSession Token: " ++
  (session_token ++
  ("\n\nWhen using the k8s diagnostic tools, format your message parameter as:\n\"" ++
  (diagnosticCallMessage session_token ++
  ("\"\n\nCRITICAL: Always use namespace=all to check ALL namespaces, not just default!\n\nExample:\n- To check all pods: message=\"" ++
  (diagnosticCallMessage session_token ++
  ("\"\n- To diagnose issue: message=\"kubernetes_diagnose_issue: session_token=" ++
  (session_token ++
   ", issue_description=check pods not starting, namespace=all\"\n\nAlways include the session_token and use namespace=all in your message.")))))))))

/-- `agent.session.messages.clear()` (`main.py` line 191): the history is
emptied in place, every prior message of every kind is removed. -/
def clearMessages (_history : List Message) : List Message :=
  []

/-- Token injection into one sub-agent (`main.py` lines 188-213): clear the
agent's conversation history, then append the single session-context
`SystemMessage`. -/
def injectSessionToken (history : List Message) (cluster_context session_token : String) :
    List Message :=
  clearMessages history ++ [Message.system (sessionContextContent cluster_context session_token)]

/-- Recognizer for injected session-context blocks: a `SystemMessage` whose
content starts with the fixed `K8s Cluster Session:` header used only by the
injection site. -/
def isInjectedBlock (m : Message) : Bool :=
  match m with
  | Message.system content => pyStartsWith "K8s Cluster Session:" content
  | _ => false

/-- The injected session-context blocks present in a conversation history. -/
def injectedBlocks (history : List Message) : List Message :=
  history.filter isInjectedBlock

/-- The end-of-cycle reset of the coordinator history (`main.py` lines
249-258): only when the history holds more than 3 messages is it cleared down
to its first message (`messages[0]`, the system message); otherwise it is left
untouched. -/
def resetHistory (messages : List Message) : List Message :=
  if 3 < messages.length then
    match messages with
    | [] => []
    | m :: _ => [m]
  else
    messages

/-- What one iteration of the health-check loop observes from the external
coordinator call (`coordinator.send_message`, `main.py` line 243): a normal
response that leaves new messages in the session, a raised `Exception`, or a
`KeyboardInterrupt`. -/
inductive CycleEvent where
  | respond (newMessages : List Message)
  | raiseExc (msg : String)
  | interrupt
deriving DecidableEq, Repr

/-- State carried by `start_coordinator` across loop iterations: the
coordinator session history, the error log, how many cycles ran, whether the
loop has exited, and whether `coordinator.session.save()` has run. -/
structure CoordState where
  history : List Message
  errorsLogged : List String
  cyclesRun : Nat
  exited : Bool
  saved : Bool
deriving DecidableEq, Repr

/-- One iteration of the `while True` body of `start_coordinator` (`main.py`
lines 228-266): a normal response is followed by the history reset; an
`Exception` is caught by the inner handler, logged, and the reset is skipped;
a `KeyboardInterrupt` escapes the inner handler, is caught by the outer one,
and the `finally` block saves the session. After exit nothing further runs. -/
def healthCheckCycle (st : CoordState) (e : CycleEvent) : CoordState :=
  if st.exited then st
  else
    match e with
    | CycleEvent.respond newMessages =>
        { st with
          history := resetHistory (st.history ++ newMessages)
          cyclesRun := st.cyclesRun + 1 }
    | CycleEvent.raiseExc m =>
        { st with
          errorsLogged := st.errorsLogged ++ [m]
          cyclesRun := st.cyclesRun + 1 }
    | CycleEvent.interrupt =>
        { st with exited := true, saved := true }

/-- Coordinator state when the loop starts: a single system message in the
session, nothing logged, loop running. -/
def initialCoordState (sys : Message) : CoordState :=
  { history := [sys], errorsLogged := [], cyclesRun := 0, exited := false, saved := false }

/-- The health-check loop of `start_coordinator` driven by a finite trace of
cycle events. -/
def start_coordinator_loop (st : CoordState) (events : List CycleEvent) : CoordState :=
  events.foldl healthCheckCycle st

/-- Does a cycle event model a raised `Exception`? -/
def isRaiseExc (e : CycleEvent) : Bool :=
  match e with
  | CycleEvent.raiseExc _ => true
  | _ => false

/-- `msg` contains `tok` verbatim (as a contiguous run of code points). -/
def containsFull (msg tok : String) : Prop :=
  ∃ p s : List Char, msg.data = p ++ tok.data ++ s

/-- The session-creation log line (`main.py` line 76):
`f"✅ Created session for {cluster_context}: {session_token[:20]}..."`. -/
def createSessionLogMsg (cluster_context session_token : String) : String :=
  "✅ Created session for " ++ (cluster_context ++ (": " ++ (pyTake 20 session_token ++ "...")))

/-- The injection log line (`main.py` line 215):
`f"   Session token: {session_token[:30]}..."`. -/
def injectionTokenLogMsg (session_token : String) : String :=
  "   Session token: " ++ (pyTake 30 session_token ++ "...")

/-- The A2A message log line of the tool-call wrapper (`main.py` line 108):
`f"   📨 A2A Message: {kwargs[...][:200]}..."` — the whole message argument is
truncated to 200 characters, with no per-token redaction. -/
def a2aMessageLogMsg (message : String) : String :=
  "   📨 A2A Message: " ++ (pyTake 200 message ++ "...")

/-! ## Admin session-issuance endpoint (`admin_api.py`) -/

/-- The body of `POST /sessions` (`SessionCreateRequest` in `admin_api.py`).
`ttl_hours` is modelled as a natural number of hours (the source uses a float
defaulting to 24.0). -/
structure SessionCreateRequest where
  cluster_name : String
  kubeconfig : String
  context : Option String := none
  ttl_hours : Nat := 24
deriving DecidableEq, Repr

/-- The response of `POST /sessions` (`SessionCreateResponse` in
`admin_api.py`); unset optional fields are `none`. -/
structure SessionCreateResponse where
  success : Bool
  session_token : Option String := none
  cluster_name : Option String := none
  api_server : Option String := none
  namespace_ : Option String := none
  connectivity_status : Option String := none
  connectivity_message : Option String := none
  expires_at : Option String := none
  error : Option String := none
deriving DecidableEq, Repr

/-- A stored cluster session of the registry (the `session` object returned
by `session_manager.get_session`, with `credentials.api_server`,
`credentials.namespace` and `expires_at`). Times are naturals (seconds). -/
structure StoredSession where
  token : String
  cluster_name : String
  api_server : String
  namespace_ : String
  created_by : String
  created_at : Nat
  expires_at : Nat
deriving DecidableEq, Repr

/-- `session.expires_at.isoformat() + "Z"` (`admin_api.py` line 102), with the
timestamp rendered by `toString`. -/
def isoformatZ (expires_at : Nat) : String :=
  toString expires_at ++ "Z"

/-- The outcome of the external `session_manager.create_session` call as seen
by the endpoint: a returned token, a raised `ValueError`, or another raised
exception. -/
inductive RegistryCreateResult where
  | ok (token : String)
  | valueError (msg : String)
  | otherError (msg : String)
deriving DecidableEq, Repr

/-- The `create_session` endpoint body (`admin_api.py` lines 62-116),
parameterized by the results of the external collaborators: the registry
create call, the follow-up `get_session` fetch, and the connectivity probe
(`Except.error` models the probe raising). A raised `ValueError` is answered
with a `Configuration error` response, any other exception with a
`Session creation failed` response; with a fetched session the probe decides
`connected`/`warning`; with no fetched session the status is `error` and the
probe is never attempted. -/
def create_session (req : SessionCreateRequest) (createRes : RegistryCreateResult)
    (fetched : Option StoredSession) (probe : Except String String) :
    SessionCreateResponse :=
  match createRes with
  | RegistryCreateResult.valueError m =>
      { success := false, error := some ("Configuration error: " ++ m) }
  | RegistryCreateResult.otherError m =>
      { success := false, error := some ("Session creation failed: " ++ m) }
  | RegistryCreateResult.ok session_token =>
      match fetched with
      | some session =>
          let statusMsg :=
            match probe with
            | Except.ok _ =>
                ("connected", "Successfully connected to Kubernetes API")
            | Except.error e =>
                ("warning", "Registered but connectivity test failed: " ++ e)
          { success := true
            session_token := some session_token
            cluster_name := some req.cluster_name
            api_server := some session.api_server
            namespace_ := some session.namespace_
            connectivity_status := some statusMsg.1
            connectivity_message := some statusMsg.2
            expires_at := some (isoformatZ session.expires_at) }
      | none =>
          { success := true
            session_token := some session_token
            cluster_name := some req.cluster_name
            api_server := some "unknown"
            namespace_ := some "default"
            connectivity_status := some "error"
            connectivity_message := some "Session creation failed"
            expires_at := none }

/-! ## Session registry (spec-modelled)

The registry implementation (`k8s_ai/utils/cluster_sessions.py`) is imported
by `admin_api.py` but is not part of the sources; it is modelled here from the
specification (§4.1). -/

/-- The minimal parsed cluster credential: an API server endpoint and a
namespace. -/
structure Credential where
  api_server : String
  namespace_ : String
deriving DecidableEq, Repr

/-- Suffix of the haystack after the first occurrence of `marker`, or `none`
if `marker` does not occur. -/
def afterMarker (marker : List Char) : List Char → Option (List Char)
  | [] => none
  | c :: rest =>
      if marker.isPrefixOf (c :: rest) then some ((c :: rest).drop marker.length)
      else afterMarker marker rest

/-- Modelled from the spec: credential parsing of the missing registry
(`k8s_ai/utils/cluster_sessions.py` is not under the sources). Per §4.1 the
parse fails exactly when no API server endpoint is resolvable from the blob;
here the endpoint is the remainder of the first `server: ` line of the
kubeconfig YAML, and the namespace defaults to `default`. -/
def parseCredential (blob : String) : Option Credential :=
  match afterMarker ("server: ".data) blob.data with
  | none => none
  | some rest =>
      some { api_server := ⟨rest.takeWhile (fun c => c != '\n')⟩, namespace_ := "default" }

/-- Modelled from the spec: the in-memory session registry of §4.1, a list of
stored sessions ordered by creation time. -/
structure Registry where
  sessions : List StoredSession
deriving DecidableEq, Repr

/-- Modelled from the spec: `Registry.create` (§4.1). Fails with a
`ValidationError` when the TTL is not positive or the credential blob cannot
be parsed; otherwise stores a new session keyed by the fresh token with
`expires_at = now + ttl` and returns the token. On failure nothing is
stored. -/
def Registry.create (reg : Registry) (req : SessionCreateRequest)
    (freshTok created_by : String) (now : Nat) :
    Except String (Registry × String) :=
  if req.ttl_hours = 0 then
    Except.error "TTL must be positive"
  else
    match parseCredential req.kubeconfig with
    | none => Except.error "could not resolve API server endpoint from kubeconfig"
    | some cred =>
        Except.ok
          ({ sessions := reg.sessions ++
              [{ token := freshTok
                 cluster_name := req.cluster_name
                 api_server := cred.api_server
                 namespace_ := cred.namespace_
                 created_by := created_by
                 created_at := now
                 expires_at := now + req.ttl_hours * 3600 }] },
           freshTok)

/-- Modelled from the spec: `Registry.get` (§4.1) — a session is returned iff
its token matches and it is unexpired (`now < expires_at`); expired or
unknown tokens act as absent. -/
def Registry.get (reg : Registry) (tok : String) (now : Nat) : Option StoredSession :=
  reg.sessions.find? (fun s => decide (s.token = tok ∧ now < s.expires_at))

/-- The full `POST /sessions` flow: the endpoint body of `admin_api.py`
composed with the spec-modelled registry. Returns the response together with
the registry state afterwards. -/
def create_session_endpoint (reg : Registry) (req : SessionCreateRequest)
    (freshTok apiKey : String) (now : Nat) (probe : Except String String) :
    SessionCreateResponse × Registry :=
  match reg.create req freshTok apiKey now with
  | Except.error m => (create_session req (RegistryCreateResult.valueError m) none probe, reg)
  | Except.ok (reg2, tok) => (create_session req (RegistryCreateResult.ok tok) (reg2.get tok now) probe, reg2)

/-! ## Slack channel normalization -/

/-- The payload handed to `chat.postMessage` (`slack_post_message.py` lines
68-71). -/
structure SlackPostData where
  channel : String
  text : String
deriving DecidableEq, Repr

/-- The channel normalization of `SlackPostMessage.run`
(`slack_post_message.py` lines 59-61) and of the MCP `slack_post_message`
(`mcp_tools/slack.py` lines 47-49): prepend `#` unless already present. -/
def normalizeChannel (channel : String) : String :=
  if pyStartsWith "#" channel then channel else "#" ++ channel

/-- The post payload actually used by `slack_post_message`: the normalized
channel and the unmodified text. -/
def slack_post_message_data (channel text : String) : SlackPostData :=
  { channel := normalizeChannel channel, text := text }

/-! ## Concrete sample inputs used by witnesses and counterexamples -/

/-- A 64-character session token (longer than any truncation window). -/
def sampleToken : String :=
  "k8s-session-aaaabbbbccccddddeeeeffffgggghhhhiiiijjjjkkkkllllmmmm"

/-- A minimal kubeconfig blob whose API server endpoint is resolvable. -/
def sampleKubeconfig : String :=
  "apiVersion: v1\nclusters:\n- cluster:\n    server: https://127.0.0.1:6443\n    name: demo\n"

/-! ## Helper lemmas -/

theorem data_pyTake (n : Nat) (s : String) : (pyTake n s).data = s.data.take n := rfl

theorem isPrefixOf_append_left :
    ∀ (p a b : List Char), p.isPrefixOf a = true → p.isPrefixOf (a ++ b) = true := by
  intro p
  induction p with
  | nil => intro a b _; simp [List.isPrefixOf]
  | cons x xs ih =>
      intro a b h
      cases a with
      | nil => simp [List.isPrefixOf] at h
      | cons y ys =>
          have h2 : (x == y && xs.isPrefixOf ys) = true := h
          rw [Bool.and_eq_true] at h2
          show (x == y && xs.isPrefixOf (ys ++ b)) = true
          rw [Bool.and_eq_true]
          exact ⟨h2.1, ih ys b h2.2⟩

theorem sessionContext_isInjected (c t : String) :
    isInjectedBlock (Message.system (sessionContextContent c t)) = true := by
  show pyStartsWith "K8s Cluster Session:" (sessionContextContent c t) = true
  unfold pyStartsWith sessionContextContent
  rw [String.data_append]
  exact isPrefixOf_append_left _ _ _ (by decide)

/-! ## Claim theorems -/

/-- C1: every token injection first removes all previously injected context
blocks (it clears the history), so immediately after any injection the history
contains exactly one injected context block; injecting twice with the same
token yields that same single block, and injecting a second, different token
leaves only the new token's block, never two session tokens at once. -/
theorem inject_exactly_one_context_block :
    ∀ (history : List Message) (c t t2 : String),
      injectedBlocks (injectSessionToken history c t)
          = [Message.system (sessionContextContent c t)]
      ∧ injectSessionToken (injectSessionToken history c t) c t
          = injectSessionToken history c t
      ∧ injectedBlocks (injectSessionToken (injectSessionToken history c t) c t2)
          = [Message.system (sessionContextContent c t2)] := by
  intro history c t t2
  refine ⟨?_, rfl, ?_⟩ <;>
    simp [injectedBlocks, injectSessionToken, clearMessages, List.filter,
      sessionContext_isInjected]

/-- C10: each token injection clears the target sub-agent's entire
conversation history — every prior message of every kind — before appending
the single new injected block, so the post-injection history has length
exactly 1 and consists only of the injected block. -/
theorem inject_clears_entire_history :
    ∀ (history : List Message) (c t : String),
      injectSessionToken history c t = [Message.system (sessionContextContent c t)]
      ∧ (injectSessionToken history c t).length = 1
      ∧ ∀ m ∈ injectSessionToken history c t,
          m = Message.system (sessionContextContent c t) := by
  intro history c t
  refine ⟨rfl, rfl, ?_⟩
  intro m hm
  simpa [injectSessionToken, clearMessages] using hm

/-- C6: the injected block's content contains the full session token
verbatim, contains the literal diagnostic call-pattern template, and that
template specifies the all-namespaces scope `namespace=all`. -/
theorem sessionContext_contains_token_and_template :
    ∀ (c t : String),
      containsFull (sessionContextContent c t) t
      ∧ containsFull (sessionContextContent c t) (diagnosticCallMessage t)
      ∧ containsFull (diagnosticCallMessage t) "namespace=all" := by
  intro c t
  refine ⟨?_, ?_, ?_⟩
  · refine ⟨("K8s Cluster Session: You have been given access to the \x27").data ++
        (c.data ++ ("\x27 Kubernetes cluster.\n\nSession Token: ").data),
      ("\n\nWhen using the k8s diagnostic tools, format your message parameter as:\n\"" ++
        (diagnosticCallMessage t ++
        ("\"\n\nCRITICAL: Always use namespace=all to check ALL namespaces, not just default!\n\nExample:\n- To check all pods: message=\"" ++
        (diagnosticCallMessage t ++
        ("\"\n- To diagnose issue: message=\"kubernetes_diagnose_issue: session_token=" ++
        (t ++
         ", issue_description=check pods not starting, namespace=all\"\n\nAlways include the session_token and use namespace=all in your message.")))))).data, ?_⟩
    simp only [sessionContextContent, String.data_append, List.append_assoc]
  · refine ⟨("K8s Cluster Session: You have been given access to the \x27").data ++
        (c.data ++ (("\x27 Kubernetes cluster.\n\nSession Token: ").data ++
        (t.data ++
          ("\n\nWhen using the k8s diagnostic tools, format your message parameter as:\n\"").data))),
      ("\"\n\nCRITICAL: Always use namespace=all to check ALL namespaces, not just default!\n\nExample:\n- To check all pods: message=\"" ++
        (diagnosticCallMessage t ++
        ("\"\n- To diagnose issue: message=\"kubernetes_diagnose_issue: session_token=" ++
        (t ++
         ", issue_description=check pods not starting, namespace=all\"\n\nAlways include the session_token and use namespace=all in your message.")))).data, ?_⟩
    simp only [sessionContextContent, String.data_append, List.append_assoc]
  · refine ⟨("kubernetes_resource_health: session_token=").data ++
        (t.data ++ (", resource_type=pod, ").data), [], ?_⟩
    have hsplit : (", resource_type=pod, namespace=all" : String).data
        = (", resource_type=pod, " : String).data ++ ("namespace=all" : String).data := by
      decide
    simp only [diagnosticCallMessage, String.data_append, List.append_assoc, hsplit,
      List.append_nil]
    rw [List.append_right_inj, List.append_right_inj]
    decide

/-- C2 counterexample: a completed health-check cycle that leaves the
coordinator history at 3 messages (system + prompt + response) does NOT get
truncated back to one message — the reset only fires above 3 messages, so the
next cycle begins with 3 carried-over messages, refuting the claim that after
every completed cycle the history is exactly one retained system message. -/
theorem completed_cycle_keeps_three_messages :
    ¬ ((healthCheckCycle
          (initialCoordState (Message.system "You are the MAKDO Coordinator."))
          (CycleEvent.respond
            [Message.user "Perform a comprehensive health check",
             Message.assistant "All clusters healthy"])).history.length = 1) := by
  decide

/-- C2 (amended): after a completed health-check cycle the reset step
truncates the coordinator history to exactly its first retained (system)
message only when the history holds more than 3 messages; a history of 3 or
fewer messages is left unchanged, so a cycle may begin with up to 3
carried-over messages, and post-reset the history never exceeds 3. -/
theorem resetHistory_truncates_only_above_three :
    ∀ messages : List Message,
      (resetHistory messages).length ≤ 3
      ∧ (3 < messages.length → resetHistory messages = messages.take 1)
      ∧ (messages.length ≤ 3 → resetHistory messages = messages) := by
  intro messages
  refine ⟨?_, ?_, ?_⟩
  · unfold resetHistory
    by_cases h : 3 < messages.length
    · rw [if_pos h]
      cases messages with
      | nil => simp at h
      | cons m rest => simp
    · rw [if_neg h]
      omega
  · intro hgt
    unfold resetHistory
    rw [if_pos hgt]
    cases messages with
    | nil => simp at hgt
    | cons m rest => rfl
  · intro hle
    unfold resetHistory
    rw [if_neg (by omega)]

/-- C2 witness: the amended reset behavior at concrete histories — a
5-message history is truncated to its first (system) message, a 3-message
history is left unchanged. -/
theorem resetHistory_truncates_witness :
    resetHistory [Message.system "s", Message.user "u1", Message.assistant "a1",
        Message.user "u2", Message.assistant "a2"]
      = [Message.system "s"]
    ∧ resetHistory [Message.system "s", Message.user "u1", Message.assistant "a1"]
      = [Message.system "s", Message.user "u1", Message.assistant "a1"] := by
  constructor
  · have h := (resetHistory_truncates_only_above_three
      [Message.system "s", Message.user "u1", Message.assistant "a1",
       Message.user "u2", Message.assistant "a2"]).2.1 (by decide)
    simpa using h
  · exact (resetHistory_truncates_only_above_three
      [Message.system "s", Message.user "u1", Message.assistant "a1"]).2.2 (by decide)

theorem loop_frozen (events : List CycleEvent) :
    ∀ st : CoordState, st.exited = true → start_coordinator_loop st events = st := by
  induction events with
  | nil => intro st _; rfl
  | cons e rest ih =>
      intro st h
      show start_coordinator_loop (healthCheckCycle st e) rest = st
      rw [healthCheckCycle.eq_def, if_pos h]
      exact ih st h

theorem loop_no_interrupt (events : List CycleEvent) :
    ∀ st : CoordState, CycleEvent.interrupt ∉ events → st.exited = false →
      (start_coordinator_loop st events).exited = false
      ∧ (start_coordinator_loop st events).cyclesRun = st.cyclesRun + events.length
      ∧ (start_coordinator_loop st events).errorsLogged.length
          = st.errorsLogged.length + (events.filter isRaiseExc).length := by
  induction events with
  | nil => intro st _ hex; exact ⟨hex, rfl, rfl⟩
  | cons e rest ih =>
      intro st hmem hex
      have hrest : CycleEvent.interrupt ∉ rest := fun h => hmem (List.mem_cons_of_mem e h)
      have hstep : start_coordinator_loop st (e :: rest)
          = start_coordinator_loop (healthCheckCycle st e) rest := rfl
      cases e with
      | respond ms =>
          have hc : healthCheckCycle st (CycleEvent.respond ms)
              = { st with
                  history := resetHistory (st.history ++ ms)
                  cyclesRun := st.cyclesRun + 1 } := by
            rw [healthCheckCycle.eq_def, if_neg (by simp [hex])]
          have := ih (healthCheckCycle st (CycleEvent.respond ms))
            hrest (by rw [hc]; exact hex)
          rw [hstep]
          refine ⟨this.1, ?_, ?_⟩
          · rw [this.2.1, hc]
            simp [List.length_cons]
            omega
          · rw [this.2.2, hc]
            simp [isRaiseExc, List.filter]
      | raiseExc m =>
          have hc : healthCheckCycle st (CycleEvent.raiseExc m)
              = { st with
                  errorsLogged := st.errorsLogged ++ [m]
                  cyclesRun := st.cyclesRun + 1 } := by
            rw [healthCheckCycle.eq_def, if_neg (by simp [hex])]
          have := ih (healthCheckCycle st (CycleEvent.raiseExc m))
            hrest (by rw [hc]; exact hex)
          rw [hstep]
          refine ⟨this.1, ?_, ?_⟩
          · rw [this.2.1, hc]
            simp [List.length_cons]
            omega
          · rw [this.2.2, hc]
            simp [isRaiseExc, List.filter, List.length_append]
            omega
      | interrupt => exact absurd (List.mem_cons_self _ _) hmem

theorem loop_interrupt (events : List CycleEvent) :
    ∀ st : CoordState, CycleEvent.interrupt ∈ events → st.exited = false →
      (start_coordinator_loop st events).exited = true
      ∧ (start_coordinator_loop st events).saved = true := by
  induction events with
  | nil => intro st h; simp at h
  | cons e rest ih =>
      intro st hmem hex
      have hstep : start_coordinator_loop st (e :: rest)
          = start_coordinator_loop (healthCheckCycle st e) rest := rfl
      cases e with
      | interrupt =>
          have hc : healthCheckCycle st CycleEvent.interrupt
              = { st with exited := true, saved := true } := by
            rw [healthCheckCycle.eq_def, if_neg (by simp [hex])]
          rw [hstep, hc, loop_frozen rest _ rfl]
          exact ⟨rfl, rfl⟩
      | respond ms =>
          have hmem2 : CycleEvent.interrupt ∈ rest := by
            cases List.mem_cons.mp hmem with
            | inl h => exact absurd h (by simp)
            | inr h => exact h
          have hc : (healthCheckCycle st (CycleEvent.respond ms)).exited = false := by
            rw [healthCheckCycle.eq_def, if_neg (by simp [hex])]
            exact hex
          rw [hstep]
          exact ih _ hmem2 hc
      | raiseExc m =>
          have hmem2 : CycleEvent.interrupt ∈ rest := by
            cases List.mem_cons.mp hmem with
            | inl h => exact absurd h (by simp)
            | inr h => exact h
          have hc : (healthCheckCycle st (CycleEvent.raiseExc m)).exited = false := by
            rw [healthCheckCycle.eq_def, if_neg (by simp [hex])]
            exact hex
          rw [hstep]
          exact ih _ hmem2 hc

/-- C3: an exception raised during a cycle's analysis step is caught, logged,
and the loop proceeds — a trace without an interrupt never exits the loop and
runs every cycle, logging one error per raising cycle; the loop exits exactly
when the trace contains a keyboard interrupt, and on that exit the
coordinator's session state is saved. -/
theorem health_check_loop_resilience :
    ∀ (sys : Message) (events : List CycleEvent),
      (CycleEvent.interrupt ∉ events →
        (start_coordinator_loop (initialCoordState sys) events).exited = false
        ∧ (start_coordinator_loop (initialCoordState sys) events).cyclesRun = events.length
        ∧ (start_coordinator_loop (initialCoordState sys) events).errorsLogged.length
            = (events.filter isRaiseExc).length)
      ∧ (CycleEvent.interrupt ∈ events →
        (start_coordinator_loop (initialCoordState sys) events).exited = true
        ∧ (start_coordinator_loop (initialCoordState sys) events).saved = true) := by
  intro sys events
  constructor
  · intro h
    have hmain := loop_no_interrupt events (initialCoordState sys) h rfl
    refine ⟨hmain.1, ?_, ?_⟩
    · rw [hmain.2.1]
      simp [initialCoordState]
    · rw [hmain.2.2]
      simp [initialCoordState]
  · intro h
    exact loop_interrupt events (initialCoordState sys) h rfl

/-- C3 witness: a trace of a raising cycle followed by a normal cycle keeps
the loop running with both cycles run and the error logged; a trace ending in
a keyboard interrupt exits the loop with the session saved. -/
theorem health_check_loop_resilience_witness :
    ((start_coordinator_loop (initialCoordState (Message.system "sys"))
        [CycleEvent.raiseExc "boom",
         CycleEvent.respond [Message.user "u", Message.assistant "a"]]).exited = false
      ∧ (start_coordinator_loop (initialCoordState (Message.system "sys"))
          [CycleEvent.raiseExc "boom",
           CycleEvent.respond [Message.user "u", Message.assistant "a"]]).cyclesRun = 2
      ∧ (start_coordinator_loop (initialCoordState (Message.system "sys"))
          [CycleEvent.raiseExc "boom",
           CycleEvent.respond [Message.user "u", Message.assistant "a"]]).errorsLogged.length = 1)
    ∧ ((start_coordinator_loop (initialCoordState (Message.system "sys"))
          [CycleEvent.raiseExc "boom", CycleEvent.interrupt]).exited = true
      ∧ (start_coordinator_loop (initialCoordState (Message.system "sys"))
          [CycleEvent.raiseExc "boom", CycleEvent.interrupt]).saved = true) := by
  constructor
  · have h := (health_check_loop_resilience (Message.system "sys")
      [CycleEvent.raiseExc "boom",
       CycleEvent.respond [Message.user "u", Message.assistant "a"]]).1 (by decide)
    refine ⟨h.1, by rw [h.2.1]; rfl, by rw [h.2.2]; rfl⟩
  · exact (health_check_loop_resilience (Message.system "sys")
      [CycleEvent.raiseExc "boom", CycleEvent.interrupt]).2 (by decide)

set_option maxRecDepth 8192 in
/-- C7 counterexample: the tool-call wrapper's A2A message log line emitted
for a diagnostic call carrying the 64-character `sampleToken` contains the
token at full length (its 200-character cut falls far beyond the token), so
the system does log a session token untruncated, refuting the claim that
every log message truncates tokens to a 10-30 character prefix. -/
theorem tool_log_contains_full_token :
    containsFull (a2aMessageLogMsg (diagnosticCallMessage sampleToken)) sampleToken
    ∧ 30 < sampleToken.length := by
  constructor
  · refine ⟨("   📨 A2A Message: kubernetes_resource_health: session_token=").data,
      (", resource_type=pod, namespace=all...").data, ?_⟩
    decide
  · decide

/-- C7 (amended): at the two dedicated token-logging sites the token appears
only as a 20- or 30-character prefix — a token longer than the whole log line
(47 + cluster-name length, resp. 51 characters) can never appear there in
full; but the tool-call logging wrapper truncates only the whole message
argument to 200 characters, so any token of at most 158 characters inside a
diagnostic call message is logged at full length. -/
theorem token_truncated_in_dedicated_logs :
    ∀ (c t : String),
      (47 + c.length < t.length → ¬ containsFull (createSessionLogMsg c t) t)
      ∧ (51 < t.length → ¬ containsFull (injectionTokenLogMsg t) t)
      ∧ (t.length ≤ 158 → containsFull (a2aMessageLogMsg (diagnosticCallMessage t)) t) := by
  intro c t
  refine ⟨?_, ?_, ?_⟩
  · rintro hlong ⟨p, s, heq⟩
    have hlow : t.data.length ≤ (createSessionLogMsg c t).data.length := by
      rw [heq]
      simp [List.length_append]
      omega
    have hup : (createSessionLogMsg c t).data.length ≤ 47 + c.data.length := by
      have h1 : ("✅ Created session for " : String).data.length = 22 := by decide
      have h2 : (": " : String).data.length = 2 := by decide
      have h3 : ("..." : String).data.length = 3 := by decide
      simp only [createSessionLogMsg, String.data_append, List.length_append,
        data_pyTake, List.length_take, h1, h2, h3]
      omega
    have hc : c.length = c.data.length := rfl
    have ht : t.length = t.data.length := rfl
    omega
  · rintro hlong ⟨p, s, heq⟩
    have hlow : t.data.length ≤ (injectionTokenLogMsg t).data.length := by
      rw [heq]
      simp [List.length_append]
      omega
    have hup : (injectionTokenLogMsg t).data.length ≤ 51 := by
      have h1 : ("   Session token: " : String).data.length = 18 := by decide
      have h3 : ("..." : String).data.length = 3 := by decide
      simp only [injectionTokenLogMsg, String.data_append, List.length_append,
        data_pyTake, List.length_take, h1, h3]
      omega
    have ht : t.length = t.data.length := rfl
    omega
  · intro hshort
    have ht : t.data.length ≤ 158 := hshort
    refine ⟨("   📨 A2A Message: " : String).data ++
        ("kubernetes_resource_health: session_token=" : String).data,
      (", resource_type=pod, namespace=all" : String).data.take (158 - t.data.length) ++
        ("..." : String).data, ?_⟩
    have hP : ("kubernetes_resource_health: session_token=" : String).data.length = 42 := by
      decide
    simp only [a2aMessageLogMsg, diagnosticCallMessage, String.data_append, data_pyTake]
    rw [List.take_append_eq_append_take, List.take_append_eq_append_take,
      List.take_of_length_le (by rw [hP]; omega), hP,
      List.take_of_length_le (by omega)]
    simp [List.append_assoc]

/-- C7 (amended) witness: for the concrete 64-character `sampleToken` the two
dedicated log lines cannot contain it in full, while the tool-call wrapper's
A2A log line does contain it in full. -/
theorem token_truncated_in_dedicated_logs_witness :
    ¬ containsFull (createSessionLogMsg "kind-makdo" sampleToken) sampleToken
    ∧ ¬ containsFull (injectionTokenLogMsg sampleToken) sampleToken
    ∧ containsFull (a2aMessageLogMsg (diagnosticCallMessage sampleToken)) sampleToken :=
  ⟨(token_truncated_in_dedicated_logs "kind-makdo" sampleToken).1 (by decide),
   (token_truncated_in_dedicated_logs "kind-makdo" sampleToken).2.1 (by decide),
   (token_truncated_in_dedicated_logs "kind-makdo" sampleToken).2.2 (by decide)⟩

/-- C4: when the credential blob parses (registry create succeeds) but the
connectivity probe throws, the endpoint answers with
`connectivity_status = "warning"`, `success = true` and the non-null fresh
token, and the created session is not rolled back: it is still stored and
fetchable from the registry afterwards. -/
theorem create_session_probe_failure_warning :
    ∀ (reg : Registry) (req : SessionCreateRequest) (freshTok apiKey : String)
      (now : Nat) (e : String) (cred : Credential),
      parseCredential req.kubeconfig = some cred →
      0 < req.ttl_hours →
      (∀ s ∈ reg.sessions, s.token ≠ freshTok) →
      (create_session_endpoint reg req freshTok apiKey now (Except.error e)).1.connectivity_status
          = some "warning"
      ∧ (create_session_endpoint reg req freshTok apiKey now (Except.error e)).1.session_token
          = some freshTok
      ∧ (create_session_endpoint reg req freshTok apiKey now (Except.error e)).1.success = true
      ∧ ∃ s, ((create_session_endpoint reg req freshTok apiKey now (Except.error e)).2).get
              freshTok now = some s
          ∧ s.token = freshTok ∧ s.cluster_name = req.cluster_name := by
  intro reg req freshTok apiKey now e cred hparse httl hfresh
  have hne : ¬ req.ttl_hours = 0 := by omega
  have hcreate : reg.create req freshTok apiKey now
      = Except.ok
          ({ sessions := reg.sessions ++
              [{ token := freshTok
                 cluster_name := req.cluster_name
                 api_server := cred.api_server
                 namespace_ := cred.namespace_
                 created_by := apiKey
                 created_at := now
                 expires_at := now + req.ttl_hours * 3600 }] },
           freshTok) := by
    unfold Registry.create
    rw [if_neg hne, hparse]
  have hget :
      Registry.get
        { sessions := reg.sessions ++
            [{ token := freshTok
               cluster_name := req.cluster_name
               api_server := cred.api_server
               namespace_ := cred.namespace_
               created_by := apiKey
               created_at := now
               expires_at := now + req.ttl_hours * 3600 }] }
        freshTok now
      = some
          { token := freshTok
            cluster_name := req.cluster_name
            api_server := cred.api_server
            namespace_ := cred.namespace_
            created_by := apiKey
            created_at := now
            expires_at := now + req.ttl_hours * 3600 } := by
    unfold Registry.get
    rw [List.find?_append]
    have hnone : reg.sessions.find?
        (fun s => decide (s.token = freshTok ∧ now < s.expires_at)) = none := by
      apply List.find?_eq_none.mpr
      intro s hs
      simp only [decide_eq_true_eq, not_and]
      intro habs
      exact absurd habs (hfresh s hs)
    rw [hnone]
    simp only [Option.none_or]
    rw [List.find?_cons_of_pos]
    simp only [decide_eq_true_eq]
    exact ⟨by trivial, by omega⟩
  unfold create_session_endpoint
  rw [hcreate]
  simp only
  rw [hget]
  exact ⟨rfl, rfl, rfl, _, rfl, rfl, rfl⟩

/-- C4 witness: a concrete issuance against an empty registry with a
parseable kubeconfig and a probe that throws yields the warning status, the
token, and a still-fetchable session. -/
theorem create_session_probe_failure_warning_witness :
    (create_session_endpoint ⟨[]⟩
        { cluster_name := "demo", kubeconfig := sampleKubeconfig,
          context := none, ttl_hours := 1 }
        "tok-abc123" "test-key" 0 (Except.error "connection refused")).1.connectivity_status
      = some "warning"
    ∧ (create_session_endpoint ⟨[]⟩
        { cluster_name := "demo", kubeconfig := sampleKubeconfig,
          context := none, ttl_hours := 1 }
        "tok-abc123" "test-key" 0 (Except.error "connection refused")).1.session_token
      = some "tok-abc123"
    ∧ (create_session_endpoint ⟨[]⟩
        { cluster_name := "demo", kubeconfig := sampleKubeconfig,
          context := none, ttl_hours := 1 }
        "tok-abc123" "test-key" 0 (Except.error "connection refused")).1.success = true
    ∧ ∃ s, ((create_session_endpoint ⟨[]⟩
          { cluster_name := "demo", kubeconfig := sampleKubeconfig,
            context := none, ttl_hours := 1 }
          "tok-abc123" "test-key" 0 (Except.error "connection refused")).2).get
            "tok-abc123" 0 = some s
        ∧ s.token = "tok-abc123" ∧ s.cluster_name = "demo" := by
  have h := create_session_probe_failure_warning ⟨[]⟩
    { cluster_name := "demo", kubeconfig := sampleKubeconfig,
      context := none, ttl_hours := 1 }
    "tok-abc123" "test-key" 0 "connection refused"
    { api_server := "https://127.0.0.1:6443", namespace_ := "default" }
    (by decide) (by decide) (by simp)
  exact h

/-- C5: when the credential blob cannot be parsed the registry create raises
a validation error and the endpoint answers with a configuration-error result
— `success = false`, no session token, an error message of the
`Configuration error:` class — and no session is created: the registry (and
hence the session-list count) is unchanged. -/
theorem create_session_parse_failure_config_error :
    ∀ (reg : Registry) (req : SessionCreateRequest) (freshTok apiKey : String)
      (now : Nat) (probe : Except String String),
      parseCredential req.kubeconfig = none →
      (create_session_endpoint reg req freshTok apiKey now probe).1.success = false
      ∧ (create_session_endpoint reg req freshTok apiKey now probe).1.session_token = none
      ∧ (∃ m, (create_session_endpoint reg req freshTok apiKey now probe).1.error
            = some ("Configuration error: " ++ m))
      ∧ (create_session_endpoint reg req freshTok apiKey now probe).2 = reg
      ∧ ((create_session_endpoint reg req freshTok apiKey now probe).2).sessions.length
          = reg.sessions.length := by
  intro reg req freshTok apiKey now probe hparse
  by_cases h0 : req.ttl_hours = 0
  · have hcreate : reg.create req freshTok apiKey now
        = Except.error "TTL must be positive" := by
      unfold Registry.create
      rw [if_pos h0]
    unfold create_session_endpoint
    rw [hcreate]
    exact ⟨rfl, rfl, ⟨"TTL must be positive", rfl⟩, rfl, rfl⟩
  · have hcreate : reg.create req freshTok apiKey now
        = Except.error "could not resolve API server endpoint from kubeconfig" := by
      unfold Registry.create
      rw [if_neg h0, hparse]
    unfold create_session_endpoint
    rw [hcreate]
    exact ⟨rfl, rfl, ⟨"could not resolve API server endpoint from kubeconfig", rfl⟩, rfl, rfl⟩

/-- C5 witness: issuing with a malformed credential blob against a one-session
registry yields the configuration-error result and leaves the session list
count unchanged. -/
theorem create_session_parse_failure_config_error_witness :
    (create_session_endpoint ⟨[]⟩
        { cluster_name := "demo", kubeconfig := "this is not a kubeconfig",
          context := none, ttl_hours := 24 }
        "tok-xyz" "test-key" 0 (Except.ok "v1.29")).1.success = false
    ∧ (create_session_endpoint ⟨[]⟩
        { cluster_name := "demo", kubeconfig := "this is not a kubeconfig",
          context := none, ttl_hours := 24 }
        "tok-xyz" "test-key" 0 (Except.ok "v1.29")).1.session_token = none
    ∧ (∃ m, (create_session_endpoint ⟨[]⟩
        { cluster_name := "demo", kubeconfig := "this is not a kubeconfig",
          context := none, ttl_hours := 24 }
        "tok-xyz" "test-key" 0 (Except.ok "v1.29")).1.error
          = some ("Configuration error: " ++ m))
    ∧ ((create_session_endpoint ⟨[]⟩
        { cluster_name := "demo", kubeconfig := "this is not a kubeconfig",
          context := none, ttl_hours := 24 }
        "tok-xyz" "test-key" 0 (Except.ok "v1.29")).2).sessions.length = 0 := by
  have h := create_session_parse_failure_config_error ⟨[]⟩
    { cluster_name := "demo", kubeconfig := "this is not a kubeconfig",
      context := none, ttl_hours := 24 }
    "tok-xyz" "test-key" 0 (Except.ok "v1.29") (by decide)
  exact ⟨h.1, h.2.1, h.2.2.1, h.2.2.2.2⟩

/-- C9: when the registry create returns a token but the immediate fetch of
that token comes back absent, the endpoint still answers `success = true`
with the token, while reporting `connectivity_status = "error"`,
`api_server = "unknown"`, namespace `"default"` and no expiry — so a
successful response does not imply the token refers to a fetchable
session. -/
theorem create_session_unfetchable_token_response :
    ∀ (req : SessionCreateRequest) (tok : String) (probe : Except String String),
      (create_session req (RegistryCreateResult.ok tok) none probe).success = true
      ∧ (create_session req (RegistryCreateResult.ok tok) none probe).session_token = some tok
      ∧ (create_session req (RegistryCreateResult.ok tok) none probe).connectivity_status
          = some "error"
      ∧ (create_session req (RegistryCreateResult.ok tok) none probe).api_server
          = some "unknown"
      ∧ (create_session req (RegistryCreateResult.ok tok) none probe).namespace_
          = some "default"
      ∧ (create_session req (RegistryCreateResult.ok tok) none probe).expires_at = none := by
  intro req tok probe
  exact ⟨rfl, rfl, rfl, rfl, rfl, rfl⟩

/-- C8: the channel actually used by the Slack post is the input when it
already starts with `#`, and `#` prepended to the input otherwise; the
normalization is idempotent. -/
theorem slack_channel_normalization :
    ∀ (channel text : String),
      (pyStartsWith "#" channel = true →
        (slack_post_message_data channel text).channel = channel)
      ∧ (pyStartsWith "#" channel = false →
        (slack_post_message_data channel text).channel = "#" ++ channel)
      ∧ normalizeChannel (normalizeChannel channel) = normalizeChannel channel := by
  intro channel text
  refine ⟨?_, ?_, ?_⟩
  · intro h
    simp [slack_post_message_data, normalizeChannel, h]
  · intro h
    simp [slack_post_message_data, normalizeChannel, h]
  · by_cases h : pyStartsWith "#" channel
    · simp [normalizeChannel, h]
    · have hh : pyStartsWith "#" ("#" ++ channel) = true := by
        unfold pyStartsWith
        rw [String.data_append]
        exact isPrefixOf_append_left _ _ _ (by decide)
      simp [normalizeChannel, h, hh]

/-- C8 witness: concrete channel names with and without the leading `#`. -/
theorem slack_channel_normalization_witness :
    (slack_post_message_data "makdo-devops" "All clusters healthy").channel
      = "#" ++ "makdo-devops"
    ∧ (slack_post_message_data "#makdo-devops" "All clusters healthy").channel
      = "#makdo-devops" :=
  ⟨(slack_channel_normalization "makdo-devops" "All clusters healthy").2.1 (by decide),
   (slack_channel_normalization "#makdo-devops" "All clusters healthy").1 (by decide)⟩
